import Mathlib

/-!
Shallow embedding of `src/examples/integrations/python/openapi_ai_agents_client.py`,
the Python client for the OpenAPI AI Agents validation HTTP API.

Python/JSON values are modelled by the inductive `Json` (rationals stand for
Python numbers; no arithmetic is performed on them by the client, only
pass-through, so the exact numeric representation is irrelevant).  The external
HTTP transport (`requests.Session.request`) and the external YAML/JSON parsers
(`yaml.safe_load`, `json.load`) are parameters of the model, supplied through
`ClientEnv`; everything that the code of the repository itself does — request construction,
dispatch, error classification, result-record building, the CLI driver — is
translated line by line from the source.
-/

/-- A JSON / Python value: `None`, `bool`, number, `str`, `list`, `dict`. -/
inductive Json where
  | null : Json
  | bool (b : Bool) : Json
  | num (q : ℚ) : Json
  | str (s : String) : Json
  | arr (xs : List Json) : Json
  | obj (kvs : List (String × Json)) : Json

/-- Key lookup in the binding list of a JSON object. -/
def lookupKey : List (String × Json) → String → Option Json
  | [], _ => none
  | (k, v) :: rest, key => if k = key then some v else lookupKey rest key

/-- Python `d[key]` on a parsed JSON value: first binding with the given key,
`none` when the key is absent or the value is not a dict (→ `KeyError` /
`TypeError` in Python). -/
def jsonGet (j : Json) (key : String) : Option Json :=
  match j with
  | Json.obj kvs => lookupKey kvs key
  | _ => none

/-- Whether a JSON value is a Python mapping — the only values that carry
the `.get` method used on parsed error bodies. -/
def jsonIsObj : Json → Bool
  | Json.obj _ => true
  | _ => false

/-- Python truthiness (`if x:`) of a JSON value. -/
def truthy : Json → Bool
  | Json.null => false
  | Json.bool b => b
  | Json.num q => decide (q ≠ 0)
  | Json.str s => decide (s ≠ "")
  | Json.arr xs => !xs.isEmpty
  | Json.obj kvs => !kvs.isEmpty

/-- One HTTP request issued through `session.request` in `_make_request`. -/
structure Request where
  method : String
  endpoint : String
  body : Option Json

/-- What the transport (the `requests` session, retries already applied)
hands back to `_make_request`: a final HTTP response — status, raw text,
and the result of parsing the text as JSON — or a transport-level failure
(`requests.exceptions.RequestException`). -/
inductive TransportResult where
  | response (status : Nat) (text : String) (jsonBody : Option Json) : TransportResult
  | failure (msg : String) : TransportResult

/-- The failures `_make_request` can surface: the `ValueError`s it raises,
the uncaught `AttributeError` arising when `error_data.get` is called on a
parsed error body that is not a mapping (`attributeError`), and the `raise`
fallback branch (`reraisedHttpError`) that re-raises the `HTTPError`
unchanged. -/
inductive ClientError where
  | invalidApiKey : ClientError
  | rateLimitExceeded : ClientError
  | apiError (errField : Option Json) : ClientError
  | attributeError : ClientError
  | httpFallback (status : Nat) (text : String) : ClientError
  | reraisedHttpError (status : Nat) : ClientError
  | requestFailed (msg : String) : ClientError

/-- Holds (`true`) exactly on the fallback `raise` branch of `_make_request`, which
re-raises the `HTTPError` instead of raising a `ValueError`. -/
def ClientError.isReraised : ClientError → Bool
  | ClientError.reraisedHttpError _ => true
  | _ => false

/-- Which `_make_request` failures are `ValueError`s: all of them except the
re-raised `HTTPError` fallback and the uncaught `AttributeError`. -/
def ClientError.isValueError : ClientError → Bool
  | ClientError.reraisedHttpError _ => false
  | ClientError.attributeError => false
  | _ => true

/-- The function `requests.Response.raise_for_status` raises `HTTPError` exactly for
4xx and 5xx status codes. -/
def raiseForStatus (status : Nat) : Bool :=
  decide (400 ≤ status) && decide (status < 600)

/-- The `except requests.exceptions.HTTPError` handler of `_make_request`:
401 → "Invalid API key"; 429 → rate limit; other ≥ 400 → parse the JSON error
body and call `error_data.get("error", str(e))`: when the body parses to a
mapping this yields the generic API `ValueError` carrying the `error` field
(`none` = the `str(e)` default), when it parses to any non-mapping JSON value
(string, list, number, ...) `.get` does not exist and an `AttributeError`
escapes uncaught, and when the body is not parseable JSON the handler falls
back to the raw status and text; otherwise the `raise` fallback. -/
def classifyHttpError (status : Nat) (jsonBody : Option Json) (text : String) : ClientError :=
  if status = 401 then ClientError.invalidApiKey
  else if status = 429 then ClientError.rateLimitExceeded
  else if 400 ≤ status then
    match jsonBody with
    | some (Json.obj kvs) => ClientError.apiError (lookupKey kvs "error")
    | some _ => ClientError.attributeError
    | none => ClientError.httpFallback status text
  else ClientError.reraisedHttpError status

/-- The environment of the client: the external YAML parser
(`yaml.safe_load`, `none` = `YAMLError`) and the HTTP transport. -/
structure ClientEnv where
  parseYaml : String → Option Json
  transport : Request → TransportResult

/-- Result of `_make_request` for one request: the parsed JSON body on
success, a `ClientError` otherwise. -/
def makeRequestResult (env : ClientEnv) (req : Request) : Except ClientError Json :=
  match env.transport req with
  | TransportResult.failure msg => Except.error (ClientError.requestFailed msg)
  | TransportResult.response status text jsonBody =>
    if raiseForStatus status then
      Except.error (classifyHttpError status jsonBody text)
    else
      match jsonBody with
      | some j => Except.ok j
      | none => Except.error (ClientError.requestFailed "response body is not valid JSON")

/-- The method `_make_request`: issues exactly one logical request over the transport
and classifies the outcome.  The second component is the trace of requests
issued. -/
def makeRequest (env : ClientEnv) (method endpoint : String) (body : Option Json) :
    Except ClientError Json × List Request :=
  (makeRequestResult env { method := method, endpoint := endpoint, body := body },
   [{ method := method, endpoint := endpoint, body := body }])

/-- Errors surfaced by the endpoint methods: a `ValueError` from
`_make_request`, a `KeyError` from a missing response field, or a
`yaml.YAMLError` from parsing a string input. -/
inductive OpError where
  | client (e : ClientError) : OpError
  | keyError (key : String) : OpError
  | yamlParseFailed : OpError

/-- Lift a `_make_request` outcome into the endpoint-method error type. -/
def liftClient : Except ClientError Json → Except OpError Json
  | Except.ok j => Except.ok j
  | Except.error e => Except.error (OpError.client e)

/-- Reading `response[key]` in a result constructor: `KeyError` when absent. -/
def getKey (response : Json) (key : String) : Except OpError Json :=
  match jsonGet response key with
  | some v => Except.ok v
  | none => Except.error (OpError.keyError key)

/-- The statement `if isinstance(specification, str): specification = yaml.safe_load(specification)` —
string inputs are YAML-parsed, every other value is passed through. -/
def resolveSpec (parseYaml : String → Option Json) (specification : Json) : Option Json :=
  match specification with
  | Json.str s => parseYaml s
  | j => some j

/-- The `ValidationResult` dataclass.  Fields hold the raw response values:
Python dataclasses do not enforce the annotated types. -/
structure ValidationResult where
  valid : Json
  certification_level : Json
  passed : Json
  warnings : Json
  errors : Json

/-- The `EstimationResult` dataclass. -/
structure EstimationResult where
  total_tokens : Json
  compressed_tokens : Json
  model : Json
  daily_cost : Json
  monthly_cost : Json
  annual_cost : Json
  annual_savings : Json
  savings_percentage : Json
  token_breakdown : Json
  optimizations : Json

/-- The `ComplianceResult` dataclass. -/
structure ComplianceResult where
  valid : Json
  authorization_readiness : Json
  framework_results : Json
  total_passed : Json
  total_warnings : Json
  total_errors : Json

/-- The `ValidationResult(...)` construction shared by `validate_openapi`
(`clField = "certification_level"`) and `validate_agent_config`
(`clField = "readiness_level"`); fields are read in source order, the first
missing key raises `KeyError`. -/
def buildValidationResult (clField : String) (response : Json) :
    Except OpError ValidationResult := do
  let v ← getKey response "valid"
  let c ← getKey response clField
  let p ← getKey response "passed"
  let w ← getKey response "warnings"
  let e ← getKey response "errors"
  return { valid := v, certification_level := c, passed := p, warnings := w, errors := e }

/-- The request issued by `validate_openapi` for a resolved specification. -/
def validateOpenapiRequest (spec : Json) : Request :=
  { method := "POST", endpoint := "/validate/openapi",
    body := some (Json.obj [("specification", spec)]) }

/-- The method `validate_openapi`: YAML-parse string input, POST
`{"specification": spec}` to `/validate/openapi`, build a
`ValidationResult` from the response.  Second component: requests issued. -/
def validate_openapi (env : ClientEnv) (specification : Json) :
    Except OpError ValidationResult × List Request :=
  match resolveSpec env.parseYaml specification with
  | none => (Except.error OpError.yamlParseFailed, [])
  | some spec =>
    let r := makeRequest env "POST" "/validate/openapi"
      (some (Json.obj [("specification", spec)]))
    ((liftClient r.1).bind (buildValidationResult "certification_level"), r.2)

/-- The method `validate_agent_config`: POST `{"configuration": config}` to
`/validate/agent-config`; `certification_level` is read from the field
`readiness_level` of the response. -/
def validate_agent_config (env : ClientEnv) (configuration : Json) :
    Except OpError ValidationResult × List Request :=
  match resolveSpec env.parseYaml configuration with
  | none => (Except.error OpError.yamlParseFailed, [])
  | some config =>
    let r := makeRequest env "POST" "/validate/agent-config"
      (some (Json.obj [("configuration", config)]))
    ((liftClient r.1).bind (buildValidationResult "readiness_level"), r.2)

/-- Python truthiness of the `Optional[List[str]]` arguments `frameworks` /
`protocols`: `None` and `[]` are both falsy. -/
def truthyOptList (o : Option (List String)) : Bool :=
  match o with
  | none => false
  | some l => !l.isEmpty

/-- The payload of `validate_compliance` / `validate_protocols`:
a single configuration binding, extended with the list field only when the argument
is truthy (`if frameworks:` / `if protocols:`). -/
def optListPayload (field : String) (config : Json) (o : Option (List String)) : Json :=
  if truthyOptList o then
    Json.obj [("configuration", config),
              (field, Json.arr ((o.getD []).map Json.str))]
  else
    Json.obj [("configuration", config)]

/-- The `ComplianceResult(...)` construction of `validate_compliance`;
the three totals come from the nested `summary` mapping. -/
def buildComplianceResult (response : Json) : Except OpError ComplianceResult := do
  let v ← getKey response "valid"
  let a ← getKey response "authorization_readiness"
  let f ← getKey response "framework_results"
  let s ← getKey response "summary"
  let tp ← getKey s "total_passed"
  let tw ← getKey s "total_warnings"
  let te ← getKey s "total_errors"
  return { valid := v, authorization_readiness := a, framework_results := f,
           total_passed := tp, total_warnings := tw, total_errors := te }

/-- The method `validate_compliance`: POST a configuration payload with an optional frameworks field to
`/validate/compliance` (the `frameworks` field only when truthy). -/
def validate_compliance (env : ClientEnv) (configuration : Json)
    (frameworks : Option (List String)) :
    Except OpError ComplianceResult × List Request :=
  match resolveSpec env.parseYaml configuration with
  | none => (Except.error OpError.yamlParseFailed, [])
  | some config =>
    let r := makeRequest env "POST" "/validate/compliance"
      (some (optListPayload "frameworks" config frameworks))
    ((liftClient r.1).bind buildComplianceResult, r.2)

/-- The method `validate_protocols`: POST a configuration payload with an optional protocols field to
`/validate/protocols`; returns the raw response mapping. -/
def validate_protocols (env : ClientEnv) (configuration : Json)
    (protocols : Option (List String)) :
    Except OpError Json × List Request :=
  match resolveSpec env.parseYaml configuration with
  | none => (Except.error OpError.yamlParseFailed, [])
  | some config =>
    let r := makeRequest env "POST" "/validate/protocols"
      (some (optListPayload "protocols" config protocols))
    (liftClient r.1, r.2)

/-- The keyword options of `estimate_tokens` with their source defaults. -/
structure EstOptions where
  model : String := "gpt-4-turbo"
  requests_per_day : Int := 1000
  compression_ratio : ℚ := 7 / 10

/-- Calling `estimate_tokens` with only a specification uses the defaults. -/
def defaultEstOptions : EstOptions := {}

/-- The JSON body of `estimate_tokens`:
a specification binding plus an options mapping holding model,
requestsPerDay and compressionRatio. -/
def estimateTokensBody (spec : Json) (o : EstOptions) : Json :=
  Json.obj [("specification", spec),
            ("options", Json.obj [("model", Json.str o.model),
                                  ("requestsPerDay", Json.num o.requests_per_day),
                                  ("compressionRatio", Json.num o.compression_ratio)])]

/-- The request issued by `estimate_tokens` for a resolved specification. -/
def estimateTokensRequest (spec : Json) (o : EstOptions) : Request :=
  { method := "POST", endpoint := "/estimate/tokens",
    body := some (estimateTokensBody spec o) }

/-- The `EstimationResult(...)` construction of `estimate_tokens`; the five
cost fields come from the nested `cost_projections` mapping. -/
def buildEstimationResult (response : Json) : Except OpError EstimationResult := do
  let tt ← getKey response "total_tokens"
  let ct ← getKey response "compressed_tokens"
  let cp ← getKey response "cost_projections"
  let m ← getKey cp "model"
  let dc ← getKey cp "daily_cost"
  let mc ← getKey cp "monthly_cost"
  let ac ← getKey cp "annual_cost"
  let asav ← getKey cp "annual_savings"
  let sp ← getKey cp "savings_percentage"
  let tb ← getKey response "token_breakdown"
  let op ← getKey response "optimizations"
  return { total_tokens := tt, compressed_tokens := ct, model := m,
           daily_cost := dc, monthly_cost := mc, annual_cost := ac,
           annual_savings := asav, savings_percentage := sp,
           token_breakdown := tb, optimizations := op }

/-- The method `estimate_tokens`: POST the specification and options to
`/estimate/tokens`, build an `EstimationResult` from the response. -/
def estimate_tokens (env : ClientEnv) (specification : Json) (o : EstOptions) :
    Except OpError EstimationResult × List Request :=
  match resolveSpec env.parseYaml specification with
  | none => (Except.error OpError.yamlParseFailed, [])
  | some spec =>
    let r := makeRequest env "POST" "/estimate/tokens" (some (estimateTokensBody spec o))
    ((liftClient r.1).bind buildEstimationResult, r.2)

/-- The method `validate_and_estimate`: `validate_openapi` first; only on its success
`estimate_tokens` on the same specification; returns the pair.  The trace is
the concatenation of the traces of the two calls. -/
def validate_and_estimate (env : ClientEnv) (specification : Json) (o : EstOptions) :
    Except OpError (ValidationResult × EstimationResult) × List Request :=
  let v := validate_openapi env specification
  match v.1 with
  | Except.error e => (Except.error e, v.2)
  | Except.ok validation =>
    let est := estimate_tokens env specification o
    match est.1 with
    | Except.error e => (Except.error e, v.2 ++ est.2)
    | Except.ok estimation => (Except.ok (validation, estimation), v.2 ++ est.2)

/-- The `urllib3.util.retry.Retry` configuration built in `__init__`. -/
structure RetryStrategy where
  total : Nat
  backoff_factor : Nat
  status_forcelist : List Nat
  method_whitelist : List String

/-- The value `Retry(total=max_retries, backoff_factor=1, status_forcelist=[429, 500,
502, 503, 504], method_whitelist=[...])` as configured by the constructor. -/
def clientRetryStrategy (max_retries : Nat) : RetryStrategy :=
  { total := max_retries
    backoff_factor := 1
    status_forcelist := [429, 500, 502, 503, 504]
    method_whitelist := ["HEAD", "GET", "PUT", "DELETE", "OPTIONS", "TRACE", "POST"] }

/-- The predicate `Retry.is_retry`: a response is retried exactly when its method is in the
whitelist and its status is in the forcelist. -/
def shouldRetry (strategy : RetryStrategy) (method : String) (status : Nat) : Bool :=
  strategy.method_whitelist.contains method && strategy.status_forcelist.contains status

/-- Outcome of the transport-level retry loop: a response returned to the
caller (with the index of the attempt that produced it), or retries
exhausted (`MaxRetryError`) after the given number of attempts. -/
inductive RetryOutcome where
  | response (attempt : Nat) (status : Nat) : RetryOutcome
  | exhausted (attempts : Nat) : RetryOutcome
deriving DecidableEq

/-- The urllib3 retry loop over a stream of response statuses: a retryable
response consumes one unit of the remaining retry budget; a retryable
response with the budget at zero raises `MaxRetryError`; a non-retryable
response is returned. -/
def retryLoop (strategy : RetryStrategy) (method : String) (statuses : Nat → Nat) :
    Nat → Nat → RetryOutcome
  | 0, i =>
    if shouldRetry strategy method (statuses i) then RetryOutcome.exhausted (i + 1)
    else RetryOutcome.response i (statuses i)
  | Nat.succ fuel, i =>
    if shouldRetry strategy method (statuses i) then retryLoop strategy method statuses fuel (i + 1)
    else RetryOutcome.response i (statuses i)

/-- Run one logical request through the retry loop with the full budget
(`total` retries after the initial attempt). -/
def runWithRetry (strategy : RetryStrategy) (method : String) (statuses : Nat → Nat) :
    RetryOutcome :=
  retryLoop strategy method statuses strategy.total 0

/-- Outcome of `load_specification`: a parsed document, an `OSError` from
`open`, or a propagated YAML/JSON parse error. -/
inductive LoadResult where
  | ok (j : Json) : LoadResult
  | fileError : LoadResult
  | parseFailed : LoadResult

/-- Turn a parse outcome into a `load_specification` outcome. -/
def parsedToLoad : Option Json → LoadResult
  | some j => LoadResult.ok j
  | none => LoadResult.parseFailed

/-- Python `str.endswith(suffix)`, computed on the character lists. -/
def strEndsWith (s suffix : String) : Bool :=
  List.isSuffixOf suffix.data s.data

/-- The function `load_specification`: read the file (`fs` models the filesystem), then
`yaml.safe_load` for paths ending in `.yaml` / `.yml`, `json.load` for every
other path; parse errors propagate. -/
def load_specification (fs : String → Option String)
    (parseYaml parseJson : String → Option Json) (file_path : String) : LoadResult :=
  match fs file_path with
  | none => LoadResult.fileError
  | some contents =>
    if strEndsWith file_path ".yaml" || strEndsWith file_path ".yml" then
      parsedToLoad (parseYaml contents)
    else
      parsedToLoad (parseJson contents)

/-- The expression taking the key from argv when present, else from the
environment variable OPENAPI_AI_AGENTS_KEY. -/
def cliApiKey (argv : List String) (envKey : Option String) : Option String :=
  match argv with
  | _ :: _ :: k :: _ => some k
  | _ => envKey

/-- The check `if not api_key:` — absent or empty keys are rejected. -/
def missingKey : Option String → Bool
  | none => true
  | some s => decide (s = "")

/-- Python `x.upper()` succeeds only on a string. -/
def pyStrOk : Json → Bool
  | Json.str _ => true
  | _ => false

/-- Python `len(x)` succeeds on strings, lists and dicts. -/
def pyLenOk : Json → Bool
  | Json.str _ => true
  | Json.arr _ => true
  | Json.obj _ => true
  | _ => false

/-- Python `x[:n]` succeeds on strings and lists. -/
def pySliceOk : Json → Bool
  | Json.str _ => true
  | Json.arr _ => true
  | _ => false

/-- Python `x[:2]` as a list of element values: list elements, or the characters of
a string (each a one-character string). -/
def pySlice2 : Json → Option (List Json)
  | Json.arr xs => some (xs.take 2)
  | Json.str s => some ((s.data.take 2).map fun c => Json.str (String.mk [c]))
  | _ => none

/-- Python format with a numeric format spec succeeds on numbers (and bools,
which are ints in Python). -/
def pyNumFormatOk : Json → Bool
  | Json.num _ => true
  | Json.bool _ => true
  | _ => false

/-- Both lookups `opt["type"]` and `opt["potential_savings"]` succeed. -/
def optEntryOk (j : Json) : Bool :=
  (jsonGet j "type").isSome && (jsonGet j "potential_savings").isSome

/-- The success-branch prints of the CLI over a validation result succeed:
`certification_level.upper()`, `len(passed)`, and when `warnings` is truthy
also `len(warnings)` and `warnings[:3]`. -/
def validationReportOk (v : ValidationResult) : Bool :=
  pyStrOk v.certification_level && pyLenOk v.passed &&
  (!truthy v.warnings || (pyLenOk v.warnings && pySliceOk v.warnings))

/-- The estimation prints of the CLI succeed: the six numeric format fields, and
when `optimizations` is truthy also `len`, `[:2]` and the two key lookups on
each sliced entry. -/
def estimationReportOk (e : EstimationResult) : Bool :=
  pyNumFormatOk e.total_tokens && pyNumFormatOk e.compressed_tokens &&
  pyNumFormatOk e.daily_cost && pyNumFormatOk e.annual_cost &&
  pyNumFormatOk e.annual_savings && pyNumFormatOk e.savings_percentage &&
  (!truthy e.optimizations ||
    (pyLenOk e.optimizations &&
      match pySlice2 e.optimizations with
      | some xs => xs.all optEntryOk
      | none => false))

/-- The `__main__` block as a function from its inputs (argv, the
environment variable, the client environment, the JSON parser and the
filesystem) to the process exit code.  Every uncaught exception is caught by
the top-level handler and turned into exit code 1; falling off the end of
the script is exit code 0. -/
def cliMain (env : ClientEnv) (parseJson : String → Option Json)
    (fs : String → Option String) (argv : List String) (envKey : Option String) : Nat :=
  match argv with
  | _ :: spec_file :: _ =>
    if missingKey (cliApiKey argv envKey) then 1
    else
      match load_specification fs env.parseYaml parseJson spec_file with
      | LoadResult.fileError => 1
      | LoadResult.parseFailed => 1
      | LoadResult.ok spec =>
        match (validate_openapi env spec).1 with
        | Except.error _ => 1
        | Except.ok validation =>
          if truthy validation.valid then
            if validationReportOk validation then
              match (estimate_tokens env spec defaultEstOptions).1 with
              | Except.error _ => 1
              | Except.ok estimation =>
                if estimationReportOk estimation then 0 else 1
            else 1
          else 1
  | _ => 1

/-- A canned `/validate/openapi` response used as concrete test input. -/
def cannedValidateResponse : Json :=
  Json.obj [("valid", Json.bool true), ("certification_level", Json.str "gold"),
            ("passed", Json.arr [Json.str "a"]), ("warnings", Json.arr []),
            ("errors", Json.arr [])]

/-- A canned `/validate/agent-config` response used as concrete test input. -/
def cannedAgentConfigResponse : Json :=
  Json.obj [("valid", Json.bool true), ("readiness_level", Json.str "ready"),
            ("passed", Json.arr [Json.str "a"]), ("warnings", Json.arr []),
            ("errors", Json.arr [])]

/-- A canned `/estimate/tokens` response with `cost_projections.daily_cost = 12.5`. -/
def cannedEstimateResponse : Json :=
  Json.obj [("total_tokens", Json.num 1000), ("compressed_tokens", Json.num 700),
            ("cost_projections",
              Json.obj [("model", Json.str "gpt-4-turbo"),
                        ("daily_cost", Json.num 12.5),
                        ("monthly_cost", Json.num 375),
                        ("annual_cost", Json.num 4563),
                        ("annual_savings", Json.num 1956),
                        ("savings_percentage", Json.num 30)]),
            ("token_breakdown", Json.obj []), ("optimizations", Json.arr [])]

/-- A transport that answers every endpoint with a canned 200 response. -/
def cannedTransport : Request → TransportResult := fun req =>
  if req.endpoint = "/estimate/tokens" then
    TransportResult.response 200 "" (some cannedEstimateResponse)
  else
    TransportResult.response 200 "" (some cannedValidateResponse)

/-- A single-entry stand-in for `yaml.safe_load` (concrete test input). -/
def tableParseYaml : String → Option Json := fun s =>
  if s = "name: demo" then some (Json.obj [("name", Json.str "demo")]) else none

/-- A single-entry stand-in for `json.load` (concrete test input). -/
def tableParseJson : String → Option Json := fun s =>
  if s = "\x7b\"name\": \"demo\"\x7d" then some (Json.obj [("name", Json.str "demo")]) else none

/-- A concrete client environment over the canned transport. -/
def cannedEnv : ClientEnv :=
  { parseYaml := tableParseYaml, transport := cannedTransport }

/-- A GET `/health` request (concrete test input). -/
def healthRequest : Request := { method := "GET", endpoint := "/health", body := none }

/-- The `ValidationResult` built from `cannedValidateResponse`. -/
def cannedValidation : ValidationResult :=
  { valid := Json.bool true, certification_level := Json.str "gold",
    passed := Json.arr [Json.str "a"], warnings := Json.arr [], errors := Json.arr [] }

/-- The `EstimationResult` built from `cannedEstimateResponse`. -/
def cannedEstimation : EstimationResult :=
  { total_tokens := Json.num 1000, compressed_tokens := Json.num 700,
    model := Json.str "gpt-4-turbo", daily_cost := Json.num 12.5,
    monthly_cost := Json.num 375, annual_cost := Json.num 4563,
    annual_savings := Json.num 1956, savings_percentage := Json.num 30,
    token_breakdown := Json.obj [], optimizations := Json.arr [] }

/-- The classifier `classifyHttpError` never takes the `raise` fallback when invoked from the
`HTTPError` handler (which presupposes `raise_for_status` raised). -/
theorem classify_of_raised_not_reraised (status : Nat) (jsonBody : Option Json)
    (text : String) (h : raiseForStatus status = true) :
    (classifyHttpError status jsonBody text).isReraised = false := by
  have h400 : 400 ≤ status := by
    have := of_decide_eq_true (Bool.and_elim_left h)
    exact this
  unfold classifyHttpError
  split_ifs with h1 h2
  · rfl
  · rfl
  · cases jsonBody with
    | none => rfl
    | some j => cases j <;> rfl

/-- C1: for a mapping input `m`, `validate_openapi` issues exactly one POST to
`/validate/openapi` with body `{"specification": m}`; for a string input `s`
that YAML-parses to `p`, the body is `{"specification": p}`. -/
theorem validate_openapi_sends_specification_body (env : ClientEnv)
    (m : List (String × Json)) (s : String) (p : Json)
    (hp : env.parseYaml s = some p) :
    (validate_openapi env (Json.obj m)).2 =
      [{ method := "POST", endpoint := "/validate/openapi",
         body := some (Json.obj [("specification", Json.obj m)]) }] ∧
    (validate_openapi env (Json.str s)).2 =
      [{ method := "POST", endpoint := "/validate/openapi",
         body := some (Json.obj [("specification", p)]) }] := by
  constructor
  · rfl
  · simp only [validate_openapi, resolveSpec, hp, makeRequest]

/-- Witness for C1 at a concrete environment and inputs. -/
theorem validate_openapi_sends_specification_body_witness :
    (validate_openapi cannedEnv (Json.obj [("openapi", Json.str "3.0.0")])).2 =
      [{ method := "POST", endpoint := "/validate/openapi",
         body := some (Json.obj [("specification",
                        Json.obj [("openapi", Json.str "3.0.0")])]) }] ∧
    (validate_openapi cannedEnv (Json.str "name: demo")).2 =
      [{ method := "POST", endpoint := "/validate/openapi",
         body := some (Json.obj [("specification",
                        Json.obj [("name", Json.str "demo")])]) }] :=
  validate_openapi_sends_specification_body cannedEnv
    [("openapi", Json.str "3.0.0")] "name: demo" (Json.obj [("name", Json.str "demo")]) rfl

/-- C9: for `validate_compliance` and `validate_protocols`, passing an empty
list for the optional `frameworks` (resp. `protocols`) parameter produces
exactly the same request payload as passing `None` — the whole call result,
trace included, is identical; concretely, the JSON payload in both cases is
exactly the one-binding object carrying only `configuration`, with the
optional field omitted, and the single request issued for a mapping input
carries exactly that body. -/
theorem empty_list_and_none_same_payload (env : ClientEnv) (configuration : Json)
    (m : List (String × Json)) :
    validate_compliance env configuration (some []) =
      validate_compliance env configuration none ∧
    validate_protocols env configuration (some []) =
      validate_protocols env configuration none ∧
    optListPayload "frameworks" configuration (some []) =
      Json.obj [("configuration", configuration)] ∧
    optListPayload "frameworks" configuration none =
      Json.obj [("configuration", configuration)] ∧
    optListPayload "protocols" configuration (some []) =
      Json.obj [("configuration", configuration)] ∧
    optListPayload "protocols" configuration none =
      Json.obj [("configuration", configuration)] ∧
    (validate_compliance env (Json.obj m) (some [])).2 =
      [{ method := "POST", endpoint := "/validate/compliance",
         body := some (Json.obj [("configuration", Json.obj m)]) }] ∧
    (validate_compliance env (Json.obj m) none).2 =
      [{ method := "POST", endpoint := "/validate/compliance",
         body := some (Json.obj [("configuration", Json.obj m)]) }] ∧
    (validate_protocols env (Json.obj m) (some [])).2 =
      [{ method := "POST", endpoint := "/validate/protocols",
         body := some (Json.obj [("configuration", Json.obj m)]) }] ∧
    (validate_protocols env (Json.obj m) none).2 =
      [{ method := "POST", endpoint := "/validate/protocols",
         body := some (Json.obj [("configuration", Json.obj m)]) }] := by
  exact ⟨rfl, rfl, rfl, rfl, rfl, rfl, rfl, rfl, rfl, rfl⟩

/-- The classifier, when invoked from the `HTTPError` handler (so with a
raising status), yields either a `ValueError` or the uncaught
`AttributeError` of the non-mapping error-body case. -/
theorem classify_of_raised_value_or_attr (status : Nat) (jsonBody : Option Json)
    (text : String) (h : raiseForStatus status = true) :
    (classifyHttpError status jsonBody text).isValueError = true ∨
      classifyHttpError status jsonBody text = ClientError.attributeError := by
  have h400 : 400 ≤ status := by
    have := of_decide_eq_true (Bool.and_elim_left h)
    exact this
  unfold classifyHttpError
  split_ifs with h1 h2
  · left
    rfl
  · left
    rfl
  · cases jsonBody with
    | none => left; rfl
    | some j =>
      cases j with
      | obj kvs => left; rfl
      | null => right; rfl
      | bool b => right; rfl
      | num q => right; rfl
      | str s => right; rfl
      | arr xs => right; rfl

/-- C10 (amended): the fallback re-raise branch of `_make_request` for an
`HTTPError` with status below 400 is unreachable, because
`raise_for_status` raises `HTTPError` only for statuses ≥ 400; consequently
every failure of `_make_request` is surfaced as a `ValueError` or as the
uncaught `AttributeError` raised when a 4xx/5xx error body parses to
non-mapping JSON — never as an unclassified exception from that branch. -/
theorem make_request_errors_never_reraise (env : ClientEnv) (req : Request)
    (e : ClientError) (h : makeRequestResult env req = Except.error e) :
    e.isReraised = false ∧
      (e.isValueError = true ∨ e = ClientError.attributeError) := by
  unfold makeRequestResult at h
  cases ht : env.transport req with
  | failure msg =>
    rw [ht] at h
    cases h
    exact ⟨rfl, Or.inl rfl⟩
  | response status text jsonBody =>
    simp only [ht] at h
    by_cases hs : raiseForStatus status = true
    · rw [if_pos hs] at h
      cases h
      exact ⟨classify_of_raised_not_reraised status jsonBody text hs,
             classify_of_raised_value_or_attr status jsonBody text hs⟩
    · rw [if_neg hs] at h
      cases jsonBody with
      | some j => cases h
      | none =>
        cases h
        exact ⟨rfl, Or.inl rfl⟩

/-- Witness for C10 (amended) at a concrete failing transport. -/
theorem make_request_errors_never_reraise_witness :
    (ClientError.requestFailed "connection refused").isReraised = false ∧
      ((ClientError.requestFailed "connection refused").isValueError = true ∨
        ClientError.requestFailed "connection refused" = ClientError.attributeError) :=
  make_request_errors_never_reraise
    { parseYaml := fun _ => none, transport := fun _ => TransportResult.failure "connection refused" }
    healthRequest (ClientError.requestFailed "connection refused") rfl

/-- C10 counterexample: a 400 response whose body parses to the JSON string
"bad request" (parseable JSON, but not a mapping) makes
`error_data.get("error", str(e))` raise an uncaught `AttributeError` — a
failure of `_make_request` that is not a `ValueError`. -/
theorem make_request_attribute_error_counterexample :
    makeRequestResult
      { parseYaml := fun _ => none,
        transport := fun _ =>
          TransportResult.response 400 "\"bad request\"" (some (Json.str "bad request")) }
      healthRequest = Except.error ClientError.attributeError ∧
    ClientError.isValueError ClientError.attributeError = false := ⟨rfl, rfl⟩

/-- C3 (amended): for an HTTP response with status inside the raising range
of `raise_for_status`, namely `400 ≤ s < 600`, `_make_request` surfaces a
failure classified by status and body — 401 → "Invalid API key" regardless
of body, 429 → rate limit, and for any other such status: a body parsing to
a JSON mapping → the generic API `ValueError` carrying the `error` field of
the mapping (the `str(e)` default when absent), a body parsing to
non-mapping JSON → the uncaught `AttributeError` from `error_data.get`, a
body that is not parseable JSON → the raw status-and-text fallback
`ValueError`. -/
theorem make_request_http_error_classification (env : ClientEnv) (req : Request)
    (status : Nat) (text : String) (jsonBody : Option Json)
    (ht : env.transport req = TransportResult.response status text jsonBody) :
    (status = 401 → makeRequestResult env req = Except.error ClientError.invalidApiKey) ∧
    (status = 429 → makeRequestResult env req = Except.error ClientError.rateLimitExceeded) ∧
    (400 ≤ status → status < 600 → status ≠ 401 → status ≠ 429 →
      (∀ kvs, jsonBody = some (Json.obj kvs) →
        makeRequestResult env req =
          Except.error (ClientError.apiError (lookupKey kvs "error"))) ∧
      (∀ j, jsonBody = some j → jsonIsObj j = false →
        makeRequestResult env req = Except.error ClientError.attributeError) ∧
      (jsonBody = none →
        makeRequestResult env req = Except.error (ClientError.httpFallback status text))) := by
  refine ⟨?_, ?_, ?_⟩
  · rintro rfl
    unfold makeRequestResult
    rw [ht]
    rfl
  · rintro rfl
    unfold makeRequestResult
    rw [ht]
    rfl
  · intro h4 h6 hne1 hne2
    have hrs : raiseForStatus status = true := by
      unfold raiseForStatus
      rw [decide_eq_true h4, decide_eq_true h6]
      rfl
    refine ⟨?_, ?_, ?_⟩
    · rintro kvs rfl
      unfold makeRequestResult
      rw [ht]
      simp only [hrs, if_true]
      unfold classifyHttpError
      rw [if_neg hne1, if_neg hne2, if_pos h4]
    · rintro j rfl hnotObj
      unfold makeRequestResult
      rw [ht]
      simp only [hrs, if_true]
      unfold classifyHttpError
      rw [if_neg hne1, if_neg hne2, if_pos h4]
      cases j with
      | obj kvs => simp [jsonIsObj] at hnotObj
      | null => rfl
      | bool b => rfl
      | num q => rfl
      | str sj => rfl
      | arr xs => rfl
    · rintro rfl
      unfold makeRequestResult
      rw [ht]
      simp only [hrs, if_true]
      unfold classifyHttpError
      rw [if_neg hne1, if_neg hne2, if_pos h4]

/-- Witness for C3 (amended) at a concrete 401 response. -/
theorem make_request_http_error_classification_witness :
    makeRequestResult
      { parseYaml := fun _ => none,
        transport := fun _ => TransportResult.response 401 "denied" none }
      healthRequest = Except.error ClientError.invalidApiKey :=
  (make_request_http_error_classification
    { parseYaml := fun _ => none,
      transport := fun _ => TransportResult.response 401 "denied" none }
    healthRequest 401 "denied" none rfl).1 rfl

/-- C3 counterexample, refuting two clauses of the claim as stated.  First,
a response with status 600 — which satisfies "status ≥ 400" — and a
parseable JSON body is returned as a success, no error is raised, because
`raise_for_status` raises only for 400–599.  Second, a 400 response whose
body parses to the JSON array `[1]` does not yield the claimed generic API
`ValueError`: `error_data.get` on a non-mapping raises an uncaught
`AttributeError` instead. -/
theorem make_request_status_600_returns_ok :
    makeRequestResult
      { parseYaml := fun _ => none,
        transport := fun _ =>
          TransportResult.response 600 "err" (some (Json.obj [("error", Json.str "boom")])) }
      healthRequest = Except.ok (Json.obj [("error", Json.str "boom")]) ∧
    makeRequestResult
      { parseYaml := fun _ => none,
        transport := fun _ => TransportResult.response 400 "[1]" (some (Json.arr [Json.num 1])) }
      healthRequest = Except.error ClientError.attributeError ∧
    ClientError.isValueError ClientError.attributeError = false := ⟨rfl, rfl, rfl⟩

/-- When every attempt draws a retryable response, the retry loop consumes
its whole budget and raises `MaxRetryError` after `fuel + 1` attempts beyond
the first `i`. -/
theorem retryLoop_all_retryable (strategy : RetryStrategy) (method : String)
    (statuses : Nat → Nat)
    (hr : ∀ i, shouldRetry strategy method (statuses i) = true) :
    ∀ fuel i, retryLoop strategy method statuses fuel i =
      RetryOutcome.exhausted (i + fuel + 1) := by
  intro fuel
  induction fuel with
  | zero =>
    intro i
    unfold retryLoop
    rw [hr i]
    simp
  | succ f ih =>
    intro i
    unfold retryLoop
    rw [hr i]
    simp only [if_true]
    rw [ih (i + 1)]
    congr 1
    omega

/-- C5 (amended): the constructor configures retries for exactly the statuses
429, 500, 502, 503, 504, with `total = max_retries`, for the whitelisted
methods HEAD, GET, PUT, DELETE, OPTIONS, TRACE and POST (the only methods
the client issues); a stream of 503 responses to a POST is retried
`max_retries` times and then surfaces an error after `max_retries + 1`
attempts. -/
theorem retry_config_on_whitelisted_methods (n : Nat) (statuses : Nat → Nat)
    (h503 : ∀ i, statuses i = 503) :
    (clientRetryStrategy n).status_forcelist = [429, 500, 502, 503, 504] ∧
    (clientRetryStrategy n).method_whitelist =
      ["HEAD", "GET", "PUT", "DELETE", "OPTIONS", "TRACE", "POST"] ∧
    (clientRetryStrategy n).total = n ∧
    runWithRetry (clientRetryStrategy n) "POST" statuses =
      RetryOutcome.exhausted (n + 1) := by
  refine ⟨rfl, rfl, rfl, ?_⟩
  have hr : ∀ i, shouldRetry (clientRetryStrategy n) "POST" (statuses i) = true := by
    intro i
    rw [h503 i]
    rfl
  have h := retryLoop_all_retryable (clientRetryStrategy n) "POST" statuses hr n 0
  unfold runWithRetry
  rw [show (clientRetryStrategy n).total = n from rfl, h]
  congr 1
  omega

/-- Witness for C5 (amended): two configured retries exhaust after three
attempts on an all-503 stream. -/
theorem retry_config_on_whitelisted_methods_witness :
    runWithRetry (clientRetryStrategy 2) "POST" (fun _ => 503) =
      RetryOutcome.exhausted 3 :=
  (retry_config_on_whitelisted_methods 2 (fun _ => 503) (fun _ => rfl)).2.2.2

/-- C5 counterexample: the clause "for all HTTP methods" of the claim fails — PATCH is
not in the configured whitelist, so a PATCH request answered 503 is returned
on the first attempt without any retry. -/
theorem retry_patch_503_not_retried :
    ((clientRetryStrategy 3).method_whitelist.contains "PATCH") = false ∧
    runWithRetry (clientRetryStrategy 3) "PATCH" (fun _ => 503) =
      RetryOutcome.response 0 503 := ⟨rfl, rfl⟩

/-- A successful (non-raising) response with a parsed JSON body is returned
by `_make_request` as that body. -/
theorem makeRequestResult_ok (env : ClientEnv) (req : Request) (status : Nat)
    (text : String) (r : Json)
    (ht : env.transport req = TransportResult.response status text (some r))
    (hst : raiseForStatus status = false) :
    makeRequestResult env req = Except.ok r := by
  unfold makeRequestResult
  rw [ht]
  simp only [hst, Bool.false_eq_true, if_false]

/-- Evaluating the `ValidationResult(...)` constructor when every field is
present in the response. -/
theorem buildValidationResult_eq (clField : String) (r : Json) (v c p w e : Json)
    (hv : jsonGet r "valid" = some v)
    (hc : jsonGet r clField = some c)
    (hp : jsonGet r "passed" = some p)
    (hw : jsonGet r "warnings" = some w)
    (he : jsonGet r "errors" = some e) :
    buildValidationResult clField r =
      Except.ok { valid := v, certification_level := c, passed := p,
                  warnings := w, errors := e } := by
  unfold buildValidationResult getKey
  rw [hv, hc, hp, hw, he]
  rfl

/-- C2: for any successful JSON response `r` with the five expected fields,
`validate_openapi` returns a `ValidationResult` copying `valid`,
`certification_level`, `passed`, `warnings` and `errors` from `r`;
`validate_agent_config` builds the same record but sources
`certification_level` from `r["readiness_level"]`; on the canned response
`{"valid": true, "certification_level": "gold", "passed": ["a"],
"warnings": [], "errors": []}` the result has `valid = true` and
`certification_level = "gold"`. -/
theorem validation_result_field_mapping (py : String → Option Json)
    (status : Nat) (text : String) (r : Json) (m : List (String × Json))
    (v c p w e rl : Json)
    (hst : raiseForStatus status = false)
    (hv : jsonGet r "valid" = some v)
    (hc : jsonGet r "certification_level" = some c)
    (hp : jsonGet r "passed" = some p)
    (hw : jsonGet r "warnings" = some w)
    (he : jsonGet r "errors" = some e)
    (hrl : jsonGet r "readiness_level" = some rl) :
    (validate_openapi ⟨py, fun _ => TransportResult.response status text (some r)⟩
        (Json.obj m)).1 =
      Except.ok { valid := v, certification_level := c, passed := p,
                  warnings := w, errors := e } ∧
    (validate_agent_config ⟨py, fun _ => TransportResult.response status text (some r)⟩
        (Json.obj m)).1 =
      Except.ok { valid := v, certification_level := rl, passed := p,
                  warnings := w, errors := e } ∧
    (validate_openapi ⟨py, fun _ => TransportResult.response 200 "" (some cannedValidateResponse)⟩
        (Json.obj m)).1 = Except.ok cannedValidation ∧
    cannedValidation.valid = Json.bool true ∧
    cannedValidation.certification_level = Json.str "gold" := by
  refine ⟨?_, ?_, rfl, rfl, rfl⟩
  · calc (validate_openapi ⟨py, fun _ => TransportResult.response status text (some r)⟩
            (Json.obj m)).1
        = (liftClient (makeRequestResult
            ⟨py, fun _ => TransportResult.response status text (some r)⟩
            { method := "POST", endpoint := "/validate/openapi",
              body := some (Json.obj [("specification", Json.obj m)]) })).bind
            (buildValidationResult "certification_level") := rfl
      _ = (liftClient (Except.ok r)).bind (buildValidationResult "certification_level") := by
            rw [makeRequestResult_ok _ _ status text r rfl hst]
      _ = Except.ok { valid := v, certification_level := c, passed := p,
                      warnings := w, errors := e } :=
            buildValidationResult_eq "certification_level" r v c p w e hv hc hp hw he
  · calc (validate_agent_config ⟨py, fun _ => TransportResult.response status text (some r)⟩
            (Json.obj m)).1
        = (liftClient (makeRequestResult
            ⟨py, fun _ => TransportResult.response status text (some r)⟩
            { method := "POST", endpoint := "/validate/agent-config",
              body := some (Json.obj [("configuration", Json.obj m)]) })).bind
            (buildValidationResult "readiness_level") := rfl
      _ = (liftClient (Except.ok r)).bind (buildValidationResult "readiness_level") := by
            rw [makeRequestResult_ok _ _ status text r rfl hst]
      _ = Except.ok { valid := v, certification_level := rl, passed := p,
                      warnings := w, errors := e } :=
            buildValidationResult_eq "readiness_level" r v rl p w e hv hrl hp hw he

/-- Witness for C2 at a concrete response carrying both level fields. -/
theorem validation_result_field_mapping_witness :
    (validate_openapi
      ⟨tableParseYaml, fun _ => TransportResult.response 200 "ok"
        (some (Json.obj [("valid", Json.bool true),
                         ("certification_level", Json.str "gold"),
                         ("readiness_level", Json.str "ready"),
                         ("passed", Json.arr []), ("warnings", Json.arr []),
                         ("errors", Json.arr [])]))⟩
      (Json.obj [])).1 =
      Except.ok { valid := Json.bool true, certification_level := Json.str "gold",
                  passed := Json.arr [], warnings := Json.arr [],
                  errors := Json.arr [] } :=
  (validation_result_field_mapping tableParseYaml 200 "ok"
    (Json.obj [("valid", Json.bool true), ("certification_level", Json.str "gold"),
               ("readiness_level", Json.str "ready"), ("passed", Json.arr []),
               ("warnings", Json.arr []), ("errors", Json.arr [])])
    [] (Json.bool true) (Json.str "gold") (Json.arr []) (Json.arr []) (Json.arr [])
    (Json.str "ready") rfl rfl rfl rfl rfl rfl rfl).1

/-- Do-notation reduction for `Except`: binding a success continues with the
continuation. -/
theorem except_bind_ok {e a b : Type} (x : a) (f : a → Except e b) :
    (Except.ok x : Except e a) >>= f = f x := rfl

/-- Do-notation reduction for `Except`: `pure` is `Except.ok`. -/
theorem except_pure_eq {e a : Type} (x : a) :
    (pure x : Except e a) = Except.ok x := rfl

/-- Evaluating the `EstimationResult(...)` constructor when every field is
present in the response and its nested `cost_projections` mapping. -/
theorem buildEstimationResult_eq (r cp : Json) (tt ct m dc mc ac asv sp tb op : Json)
    (htt : jsonGet r "total_tokens" = some tt)
    (hct : jsonGet r "compressed_tokens" = some ct)
    (hcp : jsonGet r "cost_projections" = some cp)
    (hm : jsonGet cp "model" = some m)
    (hdc : jsonGet cp "daily_cost" = some dc)
    (hmc : jsonGet cp "monthly_cost" = some mc)
    (hac : jsonGet cp "annual_cost" = some ac)
    (hasv : jsonGet cp "annual_savings" = some asv)
    (hsp : jsonGet cp "savings_percentage" = some sp)
    (htb : jsonGet r "token_breakdown" = some tb)
    (hop : jsonGet r "optimizations" = some op) :
    buildEstimationResult r =
      Except.ok { total_tokens := tt, compressed_tokens := ct, model := m,
                  daily_cost := dc, monthly_cost := mc, annual_cost := ac,
                  annual_savings := asv, savings_percentage := sp,
                  token_breakdown := tb, optimizations := op } := by
  unfold buildEstimationResult getKey
  simp only [htt, hct, hcp, except_bind_ok, hm, hdc, hmc, hac, hasv, hsp, htb, hop,
    except_pure_eq]

/-- C4: `estimate_tokens` sends exactly
`{"specification": spec, "options": {"model": model, "requestsPerDay":
requests_per_day, "compressionRatio": compression_ratio}}` to
`POST /estimate/tokens`, and on a successful response reads the five cost
fields from the nested `cost_projections` mapping; in particular
`cost_projections.daily_cost = 12.5` in the canned response yields
`daily_cost = 12.5` in the result. -/
theorem estimate_tokens_body_and_cost_fields (py : String → Option Json)
    (status : Nat) (text : String) (r cp : Json) (m : List (String × Json))
    (mo : String) (rpd : Int) (cr : ℚ)
    (tt ct mj dc mc ac asv sp tb op : Json)
    (hst : raiseForStatus status = false)
    (htt : jsonGet r "total_tokens" = some tt)
    (hct : jsonGet r "compressed_tokens" = some ct)
    (hcp : jsonGet r "cost_projections" = some cp)
    (hm : jsonGet cp "model" = some mj)
    (hdc : jsonGet cp "daily_cost" = some dc)
    (hmc : jsonGet cp "monthly_cost" = some mc)
    (hac : jsonGet cp "annual_cost" = some ac)
    (hasv : jsonGet cp "annual_savings" = some asv)
    (hsp : jsonGet cp "savings_percentage" = some sp)
    (htb : jsonGet r "token_breakdown" = some tb)
    (hop : jsonGet r "optimizations" = some op) :
    (estimate_tokens ⟨py, fun _ => TransportResult.response status text (some r)⟩
        (Json.obj m) { model := mo, requests_per_day := rpd, compression_ratio := cr }).2 =
      [{ method := "POST", endpoint := "/estimate/tokens",
         body := some (Json.obj
           [("specification", Json.obj m),
            ("options", Json.obj [("model", Json.str mo),
                                  ("requestsPerDay", Json.num (rpd : ℚ)),
                                  ("compressionRatio", Json.num cr)])]) }] ∧
    (estimate_tokens ⟨py, fun _ => TransportResult.response status text (some r)⟩
        (Json.obj m) { model := mo, requests_per_day := rpd, compression_ratio := cr }).1 =
      Except.ok { total_tokens := tt, compressed_tokens := ct, model := mj,
                  daily_cost := dc, monthly_cost := mc, annual_cost := ac,
                  annual_savings := asv, savings_percentage := sp,
                  token_breakdown := tb, optimizations := op } ∧
    (estimate_tokens ⟨py, fun _ => TransportResult.response 200 ""
        (some cannedEstimateResponse)⟩ (Json.obj m) defaultEstOptions).1 =
      Except.ok cannedEstimation ∧
    cannedEstimation.daily_cost = Json.num 12.5 := by
  refine ⟨rfl, ?_, rfl, rfl⟩
  calc (estimate_tokens ⟨py, fun _ => TransportResult.response status text (some r)⟩
          (Json.obj m) { model := mo, requests_per_day := rpd, compression_ratio := cr }).1
      = (liftClient (makeRequestResult
          ⟨py, fun _ => TransportResult.response status text (some r)⟩
          { method := "POST", endpoint := "/estimate/tokens",
            body := some (estimateTokensBody (Json.obj m)
              { model := mo, requests_per_day := rpd, compression_ratio := cr }) })).bind
          buildEstimationResult := rfl
    _ = (liftClient (Except.ok r)).bind buildEstimationResult := by
          rw [makeRequestResult_ok _ _ status text r rfl hst]
    _ = Except.ok { total_tokens := tt, compressed_tokens := ct, model := mj,
                    daily_cost := dc, monthly_cost := mc, annual_cost := ac,
                    annual_savings := asv, savings_percentage := sp,
                    token_breakdown := tb, optimizations := op } :=
          buildEstimationResult_eq r cp tt ct mj dc mc ac asv sp tb op
            htt hct hcp hm hdc hmc hac hasv hsp htb hop

/-- Witness for C4 at the canned estimate response. -/
theorem estimate_tokens_body_and_cost_fields_witness :
    (estimate_tokens ⟨tableParseYaml, fun _ => TransportResult.response 200 ""
        (some cannedEstimateResponse)⟩ (Json.obj [])
        { model := "gpt-4-turbo", requests_per_day := 1000, compression_ratio := 7 / 10 }).1 =
      Except.ok cannedEstimation :=
  ((estimate_tokens_body_and_cost_fields tableParseYaml 200 "" cannedEstimateResponse
    (Json.obj [("model", Json.str "gpt-4-turbo"), ("daily_cost", Json.num 12.5),
               ("monthly_cost", Json.num 375), ("annual_cost", Json.num 4563),
               ("annual_savings", Json.num 1956), ("savings_percentage", Json.num 30)])
    [] "gpt-4-turbo" 1000 (7 / 10)
    (Json.num 1000) (Json.num 700) (Json.str "gpt-4-turbo") (Json.num 12.5)
    (Json.num 375) (Json.num 4563) (Json.num 1956) (Json.num 30)
    (Json.obj []) (Json.arr [])
    rfl rfl rfl rfl rfl rfl rfl rfl rfl rfl rfl rfl).2).1

/-- C6: when both calls succeed, `validate_and_estimate` performs exactly one
`validate_openapi` request followed by exactly one `estimate_tokens` request
on the same specification, issues no other request, and returns the pair
(validation, estimation) in that order. -/
theorem validate_and_estimate_one_validate_one_estimate (env : ClientEnv)
    (specification : Json) (o : EstOptions) (vr : ValidationResult)
    (er : EstimationResult) (tv te : List Request)
    (hv : validate_openapi env specification = (Except.ok vr, tv))
    (he : estimate_tokens env specification o = (Except.ok er, te)) :
    validate_and_estimate env specification o = (Except.ok (vr, er), tv ++ te) ∧
    ∃ spec, resolveSpec env.parseYaml specification = some spec ∧
      tv = [validateOpenapiRequest spec] ∧
      te = [estimateTokensRequest spec o] := by
  constructor
  · simp only [validate_and_estimate, hv, he]
  · cases hres : resolveSpec env.parseYaml specification with
    | none =>
      exfalso
      unfold validate_openapi at hv
      rw [hres] at hv
      simp at hv
    | some spec =>
      refine ⟨spec, rfl, ?_, ?_⟩
      · have h2 := congrArg Prod.snd hv
        simp only [validate_openapi, hres, makeRequest] at h2
        exact h2.symm
      · have h2 := congrArg Prod.snd he
        simp only [estimate_tokens, hres, makeRequest] at h2
        exact h2.symm

/-- Witness for C6 over the canned transport. -/
theorem validate_and_estimate_one_validate_one_estimate_witness :
    validate_and_estimate cannedEnv (Json.obj []) defaultEstOptions =
      (Except.ok (cannedValidation, cannedEstimation),
       [validateOpenapiRequest (Json.obj [])] ++
       [estimateTokensRequest (Json.obj []) defaultEstOptions]) :=
  (validate_and_estimate_one_validate_one_estimate cannedEnv (Json.obj [])
    defaultEstOptions cannedValidation cannedEstimation
    [validateOpenapiRequest (Json.obj [])]
    [estimateTokensRequest (Json.obj []) defaultEstOptions] rfl rfl).1

/-- C7: `load_specification` dispatches on the file extension — `.yaml` /
`.yml` paths go to the YAML parser, every other path to the JSON parser; a
file holding a serialization `sy` (resp. `sj`) that the parser maps to `o`
loads back as exactly `o` (round trip), and malformed input surfaces a
parse error rather than being swallowed. -/
theorem load_specification_dispatch_roundtrip
    (fs : String → Option String) (py pj : String → Option Json)
    (path contents : String) (o : Json) (sy sj bad : String)
    (hfs : fs path = some contents) :
    ((strEndsWith path ".yaml" || strEndsWith path ".yml") = true →
      load_specification fs py pj path = parsedToLoad (py contents)) ∧
    ((strEndsWith path ".yaml" || strEndsWith path ".yml") = false →
      load_specification fs py pj path = parsedToLoad (pj contents)) ∧
    (py sy = some o →
      load_specification (fun q => if q = "x.yaml" then some sy else none) py pj
        "x.yaml" = LoadResult.ok o) ∧
    (pj sj = some o →
      load_specification (fun q => if q = "x.json" then some sj else none) py pj
        "x.json" = LoadResult.ok o) ∧
    (py bad = none →
      load_specification (fun q => if q = "x.yaml" then some bad else none) py pj
        "x.yaml" = LoadResult.parseFailed) := by
  refine ⟨?_, ?_, ?_, ?_, ?_⟩
  · intro hext
    unfold load_specification
    rw [hfs]
    simp only [hext, if_true]
  · intro hext
    unfold load_specification
    rw [hfs]
    simp only [hext, Bool.false_eq_true, if_false]
  · intro hy
    show parsedToLoad (py sy) = LoadResult.ok o
    rw [hy]
    rfl
  · intro hj
    show parsedToLoad (pj sj) = LoadResult.ok o
    rw [hj]
    rfl
  · intro hb
    show parsedToLoad (py bad) = LoadResult.parseFailed
    rw [hb]
    rfl

/-- Witness for C7 with concrete parsers and files. -/
theorem load_specification_dispatch_roundtrip_witness :
    load_specification (fun q => if q = "x.yaml" then some "name: demo" else none)
      tableParseYaml tableParseJson "x.yaml" =
      LoadResult.ok (Json.obj [("name", Json.str "demo")]) ∧
    load_specification (fun q => if q = "x.json" then some "\x7b\"name\": \"demo\"\x7d" else none)
      tableParseYaml tableParseJson "x.json" =
      LoadResult.ok (Json.obj [("name", Json.str "demo")]) ∧
    load_specification (fun q => if q = "x.yaml" then some "\x7b:" else none)
      tableParseYaml tableParseJson "x.yaml" = LoadResult.parseFailed :=
  ⟨((load_specification_dispatch_roundtrip
      (fun q => if q = "x.yaml" then some "name: demo" else none)
      tableParseYaml tableParseJson "x.yaml" "name: demo"
      (Json.obj [("name", Json.str "demo")]) "name: demo"
      "\x7b\"name\": \"demo\"\x7d" "\x7b:" rfl).2.2.1 rfl),
   ((load_specification_dispatch_roundtrip
      (fun q => if q = "x.json" then some "\x7b\"name\": \"demo\"\x7d" else none)
      tableParseYaml tableParseJson "x.json" "\x7b\"name\": \"demo\"\x7d"
      (Json.obj [("name", Json.str "demo")]) "name: demo"
      "\x7b\"name\": \"demo\"\x7d" "\x7b:" rfl).2.2.2.1 rfl),
   ((load_specification_dispatch_roundtrip
      (fun q => if q = "x.yaml" then some "\x7b:" else none)
      tableParseYaml tableParseJson "x.yaml" "\x7b:"
      (Json.obj [("name", Json.str "demo")]) "name: demo"
      "\x7b\"name\": \"demo\"\x7d" "\x7b:" rfl).2.2.2.2 rfl)⟩

/-- C8: the CLI takes the API key from the second argument when present,
otherwise from the environment variable `OPENAPI_AI_AGENTS_KEY`; it exits
with code 1 on a missing key, on a load/parse error, on a failed validation
call, on `result.valid` being falsy, and on any other raised error; it
exits with code 0 when every step succeeds. -/
theorem cli_exit_codes (env : ClientEnv) (pj : String → Option Json)
    (fs : String → Option String) (envKey : Option String) (p f : String) :
    (∀ k rest, cliApiKey (p :: f :: k :: rest) envKey = some k) ∧
    (cliApiKey [p, f] envKey = envKey) ∧
    (cliMain env pj fs [p] envKey = 1) ∧
    (∀ rest, missingKey (cliApiKey (p :: f :: rest) envKey) = true →
      cliMain env pj fs (p :: f :: rest) envKey = 1) ∧
    (∀ rest, missingKey (cliApiKey (p :: f :: rest) envKey) = false →
      load_specification fs env.parseYaml pj f = LoadResult.parseFailed →
      cliMain env pj fs (p :: f :: rest) envKey = 1) ∧
    (∀ rest spec err, missingKey (cliApiKey (p :: f :: rest) envKey) = false →
      load_specification fs env.parseYaml pj f = LoadResult.ok spec →
      (validate_openapi env spec).1 = Except.error err →
      cliMain env pj fs (p :: f :: rest) envKey = 1) ∧
    (∀ rest spec validation, missingKey (cliApiKey (p :: f :: rest) envKey) = false →
      load_specification fs env.parseYaml pj f = LoadResult.ok spec →
      (validate_openapi env spec).1 = Except.ok validation →
      truthy validation.valid = false →
      cliMain env pj fs (p :: f :: rest) envKey = 1) ∧
    (∀ rest spec validation estimation,
      missingKey (cliApiKey (p :: f :: rest) envKey) = false →
      load_specification fs env.parseYaml pj f = LoadResult.ok spec →
      (validate_openapi env spec).1 = Except.ok validation →
      truthy validation.valid = true →
      validationReportOk validation = true →
      (estimate_tokens env spec defaultEstOptions).1 = Except.ok estimation →
      estimationReportOk estimation = true →
      cliMain env pj fs (p :: f :: rest) envKey = 0) := by
  refine ⟨fun k rest => rfl, rfl, rfl, ?_, ?_, ?_, ?_, ?_⟩
  · intro rest h
    simp only [cliMain, h, if_true]
  · intro rest h hl
    simp only [cliMain, h, Bool.false_eq_true, if_false, hl]
  · intro rest spec err h hl hv
    simp only [cliMain, h, Bool.false_eq_true, if_false, hl, hv]
  · intro rest spec validation h hl hv ht
    simp only [cliMain, h, Bool.false_eq_true, if_false, hl, hv, ht]
  · intro rest spec validation estimation h hl hv ht hr he hre
    simp only [cliMain, h, Bool.false_eq_true, if_false, hl, hv, ht, if_true, hr,
      he, hre]

/-- Witness for C8: a complete successful run exits with code 0. -/
theorem cli_exit_codes_witness :
    cliMain cannedEnv tableParseJson
      (fun q => if q = "spec.yaml" then some "name: demo" else none)
      ["client.py", "spec.yaml", "KEY"] none = 0 :=
  (cli_exit_codes cannedEnv tableParseJson
    (fun q => if q = "spec.yaml" then some "name: demo" else none) none
    "client.py" "spec.yaml").2.2.2.2.2.2.2
    ["KEY"] (Json.obj [("name", Json.str "demo")]) cannedValidation cannedEstimation
    rfl rfl rfl rfl rfl rfl rfl
